import Mathlib

/-!
Shallow embedding of the auth backend (Express + Prisma controller in
src/unnamed/part_000, token utility in
src/backend/express-backend/src/utils/generateTokenAndSetCookie.ts).

Modelling conventions, matching the source:
- The persistence layer (prisma) is an abstract store: each table is a list
  of rows; findUnique and findFirst are List.find?; create prepends a row
  whose generated id is supplied by the environment; update maps over rows
  by id; delete removes the row with the given id.
- bcryptjs.hash p 10 is modelled by the constructor Password.hashed p 10,
  so a stored value carries its provenance; bcryptjs.compare p v succeeds
  exactly when v is the hash of p.
- jwt.sign carries its payload, secret, issue time and expiry as data;
  a cookie value is such a signed token.
- Time is milliseconds since the epoch (a Nat); Date.now() is env.now.
- Math.random() is a rational env.rand (theorems assume 0 <= rand < 1);
  crypto.randomBytes(32).toString("hex") and nanoid(8) are strings
  supplied by the environment.
- Request body fields are strings; the JS falsiness test on a field
  (absent or empty string) is String.isEmpty.
- A handler body that runs res.status(s) and then throws Error(m) produces,
  through the asyncHandler wrapper, a response with status s, success false
  and message m, with no store change, no cookie action and no email sent.
-/

/-- Provenance-carrying password value: handlers only ever store
Password.hashed plain cost, the image of bcryptjs.hash. -/
inductive Password where
  | plain (value : String)
  | hashed (plaintext : String) (cost : Nat)
deriving DecidableEq

/-- bcryptjs.hash p 10. -/
def bcryptHash (p : String) (cost : Nat) : Password :=
  Password.hashed p cost

/-- bcryptjs.compare candidate stored: true exactly when stored is the
bcrypt hash of candidate. -/
def bcryptCompare (candidate : String) (stored : Password) : Bool :=
  match stored with
  | Password.plain _ => false
  | Password.hashed p _ => candidate == p

/-- JWT payload as signed by generateTokenAndSetCookie. -/
structure JwtPayload where
  userId : String
  email : String
deriving DecidableEq

/-- A signed JWT: payload plus signing secret, issue time (ms) and
expiresIn (seconds). jwt.verify against a secret succeeds exactly when the
secrets agree and the token is unexpired. -/
structure SignedToken where
  payload : JwtPayload
  secret : String
  issuedAt : Nat
  expiresInSec : Nat
deriving DecidableEq

/-- jwt.sign payload secret with expiresIn seconds at time now. -/
def jwtSign (payload : JwtPayload) (secret : String) (now : Nat)
    (expiresInSec : Nat) : SignedToken :=
  { payload := payload, secret := secret, issuedAt := now,
    expiresInSec := expiresInSec }

/-- Options passed to res.cookie / res.clearCookie. -/
structure CookieOpts where
  httpOnly : Bool
  secure : Bool
  sameSite : String
  maxAge : Option Nat
  domain : Option String
  path : Option String
deriving DecidableEq

/-- A cookie effect on the response: res.cookie or res.clearCookie. -/
inductive CookieAction where
  | set (name : String) (value : SignedToken) (opts : CookieOpts)
  | clear (name : String) (opts : CookieOpts)
deriving DecidableEq

/-- One outbound email, by template (mail-service/emails.ts). -/
inductive Sent where
  | welcome (recipient name : String)
  | verification (recipient code : String)
  | passwordReset (recipient url : String)
  | resetSuccess (recipient : String)
deriving DecidableEq

/-- Persisted user record (prisma user table row). -/
structure User where
  id : String
  email : String
  password : Password
  name : String
  isVerified : Bool
deriving DecidableEq

/-- A row of the verificationToken or passwordResetToken table. -/
structure TokenRow where
  id : String
  token : String
  expiresAt : Nat
  userId : String
deriving DecidableEq

/-- The abstract store: the three prisma tables. -/
structure Store where
  users : List User
  verificationTokens : List TokenRow
  passwordResetTokens : List TokenRow
deriving DecidableEq

/-- userData object returned in success responses. -/
structure UserData where
  userId : String
  email : String
  isVerified : Bool
deriving DecidableEq

/-- The JSON response: status, success flag, message, optional userData. -/
structure Resp where
  status : Nat
  success : Bool
  message : String
  userData : Option UserData
deriving DecidableEq

/-- Complete effect of one request: response, cookie actions, emails sent
(in order), and the post store. -/
structure Outcome where
  resp : Resp
  cookies : List CookieAction
  emails : List Sent
  store : Store
deriving DecidableEq

/-- Per-request environment: clock, secrets, config, and the results of
the external calls (validator.isEmail, Math.random, crypto.randomBytes,
nanoid, Google token verification) plus the ids prisma generates. -/
structure Env where
  now : Nat
  jwtSecret : String
  isEmail : String → Bool
  rand : ℚ
  freshUserId : String
  freshTokenId : String
  resetTokenHex : String
  nanoidVal : String
  isProduction : Bool
  cookieDomain : String
  clientUrl : String

/-- res.status(s); throw new Error(m); as surfaced by asyncHandler. -/
def errOut (status : Nat) (msg : String) (s : Store) : Outcome :=
  { resp := { status := status, success := false, message := msg,
              userData := none },
    cookies := [], emails := [], store := s }

/-- generateTokenAndSetCookie.ts: signs a 7-day token over userId and
email with JWT_SECRET, sets it as cookie "token" (httpOnly, secure per
environment, sameSite strict, maxAge 7 days in ms), and returns it. -/
def generateTokenAndSetCookie (env : Env) (userId : String)
    (email : String) : SignedToken × CookieAction :=
  let token := jwtSign { userId := userId, email := email } env.jwtSecret
    env.now (60 * 60 * 24 * 7)
  (token,
    CookieAction.set "token" token
      { httpOnly := true
        secure := env.isProduction
        sameSite := "strict"
        maxAge := some (1000 * 60 * 60 * 24 * 7)
        domain := if env.isProduction then some env.cookieDomain else none
        path := some "/" })

/-- Math.floor(100000 + Math.random() * 900000). -/
def verificationCode (rand : ℚ) : Nat :=
  (Int.floor ((100000 : ℚ) + rand * 900000)).toNat

/-- prisma.user.findUnique where email. -/
def findUserByEmail (s : Store) (email : String) : Option User :=
  s.users.find? (fun u => u.email == email)

/-- prisma.user.findUnique where id. -/
def findUserById (s : Store) (id : String) : Option User :=
  s.users.find? (fun u => u.id == id)

/-- prisma.user.update where id, setting isVerified true. -/
def markVerified (s : Store) (id : String) : Store :=
  let f := fun (u : User) =>
    if u.id = id then { u with isVerified := true } else u
  { s with users := s.users.map f }

/-- prisma.user.update where id, setting password. -/
def setPassword (s : Store) (id : String) (p : Password) : Store :=
  let f := fun (u : User) =>
    if u.id = id then { u with password := p } else u
  { s with users := s.users.map f }

/-- signup request body. -/
structure SignupReq where
  email : String
  password : String
  name : String

/-- verifyEmail request body. -/
structure VerifyEmailReq where
  code : String
  email : String

/-- request bodies carrying only an email (regenerateVerificationToken,
forgotPassword). -/
structure EmailReq where
  email : String

/-- login request body. -/
structure LoginReq where
  email : String
  password : String

/-- resetPassword request: token from req.params, password from req.body. -/
structure ResetPasswordReq where
  token : String
  password : String

/-- checkAuth request: the token cookie, if present and nonempty. -/
structure CheckAuthReq where
  cookieToken : Option SignedToken

/-- google request body. -/
structure GoogleReq where
  idToken : String

/-- The payload of a verified Google ID token, with the fields the
handler destructures; an empty string models an absent field. -/
structure GooglePayload where
  email : String
  name : String
  email_verified : Bool

/-- auth.controller signup: validate fields and email format, reject an
existing email, create the user with a bcrypt-hashed password, insert a
24-hour verification code, send welcome and verification emails, set the
session cookie, respond 201. -/
def signup (env : Env) (req : SignupReq) (s : Store) : Outcome :=
  if req.email.isEmpty || req.name.isEmpty || req.password.isEmpty then
    errOut 400 "All fields are required" s
  else if !env.isEmail req.email then
    errOut 400 "Please enter a valid email" s
  else match findUserByEmail s req.email with
  | some _ => errOut 400 "User already exists" s
  | none =>
    let hashedPassword := bcryptHash req.password 10
    let user : User :=
      { id := env.freshUserId, email := req.email,
        password := hashedPassword, name := req.name, isVerified := false }
    let s1 := { s with users := user :: s.users }
    let code := Nat.repr (verificationCode env.rand)
    let row : TokenRow :=
      { id := env.freshTokenId, token := code,
        expiresAt := env.now + 1000 * 60 * 60 * 24, userId := user.id }
    let s2 := { s1 with verificationTokens := row :: s1.verificationTokens }
    let tc := generateTokenAndSetCookie env user.id user.email
    { resp := { status := 201, success := true,
                message := "User created successfully",
                userData := some { userId := user.id, email := user.email,
                                   isVerified := user.isVerified } },
      cookies := [tc.2],
      emails := [Sent.welcome user.email user.name,
                 Sent.verification user.email code],
      store := s2 }

/-- The findFirst condition of verifyEmail: the row belongs to the user,
matches the submitted code, and is unexpired (expiresAt strictly in the
future). -/
def matchesVerification (userId code : String) (now : Nat)
    (t : TokenRow) : Bool :=
  t.userId == userId && t.token == code && decide (now < t.expiresAt)

/-- auth.controller verifyEmail: validate, look up the user by email,
findFirst an unexpired matching verification token, mark the user
verified, delete the consumed token row, set the session cookie,
respond 200. -/
def verifyEmail (env : Env) (req : VerifyEmailReq) (s : Store) : Outcome :=
  if req.code.isEmpty || req.email.isEmpty then
    errOut 400 "Please fill all the details" s
  else if !env.isEmail req.email then
    errOut 400 "Please enter a valid email" s
  else match findUserByEmail s req.email with
  | none => errOut 404 "User not found" s
  | some user =>
    match s.verificationTokens.find?
        (matchesVerification user.id req.code env.now) with
    | none => errOut 403 "Invalid or expired verification code" s
    | some validToken =>
      let updatedUser := { user with isVerified := true }
      let s1 := markVerified s user.id
      let s2 := { s1 with verificationTokens :=
        s1.verificationTokens.filter (fun t => t.id ≠ validToken.id) }
      let tc := generateTokenAndSetCookie env updatedUser.id updatedUser.email
      { resp := { status := 200, success := true,
                  message := "Email verified successfully",
                  userData := some { userId := updatedUser.id,
                                     email := updatedUser.email,
                                     isVerified := updatedUser.isVerified } },
        cookies := [tc.2],
        emails := [],
        store := s2 }

/-- auth.controller regenerateVerificationToken: validate, look up the
user, reject an already verified user, insert a fresh 24-hour
verification code without touching existing rows, send the verification
email, respond 200. -/
def regenerateVerificationToken (env : Env) (req : EmailReq)
    (s : Store) : Outcome :=
  if req.email.isEmpty then
    errOut 400 "Please fill all the details" s
  else if !env.isEmail req.email then
    errOut 400 "Please enter a valid email" s
  else match findUserByEmail s req.email with
  | none => errOut 400 "Invalid user" s
  | some user =>
    if user.isVerified then
      errOut 400 "User already verified" s
    else
      let code := Nat.repr (verificationCode env.rand)
      let row : TokenRow :=
        { id := env.freshTokenId, token := code,
          expiresAt := env.now + 1000 * 60 * 60 * 24, userId := user.id }
      let s1 := { s with verificationTokens := row :: s.verificationTokens }
      { resp := { status := 200, success := true,
                  message := "Verification token regenerated successfully",
                  userData := some { userId := user.id, email := user.email,
                                     isVerified := user.isVerified } },
        cookies := [],
        emails := [Sent.verification user.email code],
        store := s1 }

/-- auth.controller logout: clear the token cookie and respond 200; no
validation, no store access, no email. -/
def logout (env : Env) (s : Store) : Outcome :=
  { resp := { status := 200, success := true,
              message := "Logged out successfully", userData := none },
    cookies := [CookieAction.clear "token"
      { httpOnly := true
        secure := env.isProduction
        sameSite := "strict"
        maxAge := none
        domain := if env.isProduction then some env.cookieDomain else none
        path := some "/" }],
    emails := [],
    store := s }

/-- auth.controller login: validate, look up the user by email, compare
the password against the stored bcrypt hash, set the session cookie,
respond 200; the store is never written. -/
def login (env : Env) (req : LoginReq) (s : Store) : Outcome :=
  if req.email.isEmpty || req.password.isEmpty then
    errOut 400 "Please provide both email and password" s
  else if !env.isEmail req.email then
    errOut 400 "Please enter a valid email" s
  else match findUserByEmail s req.email with
  | none => errOut 400 "User does not exist" s
  | some user =>
    if !bcryptCompare req.password user.password then
      errOut 400 "Invalid credentials" s
    else
      let tc := generateTokenAndSetCookie env user.id user.email
      { resp := { status := 200, success := true,
                  message := "User logged in successfully",
                  userData := some { userId := user.id, email := user.email,
                                     isVerified := user.isVerified } },
        cookies := [tc.2],
        emails := [],
        store := s }

/-- auth.controller forgotPassword: validate, look up the user, insert a
one-hour reset token (crypto.randomBytes hex) without touching existing
rows, email the reset link, respond 200. -/
def forgotPassword (env : Env) (req : EmailReq) (s : Store) : Outcome :=
  if req.email.isEmpty then
    errOut 400 "Email is required" s
  else if !env.isEmail req.email then
    errOut 400 "Please enter a valid email" s
  else match findUserByEmail s req.email with
  | none => errOut 400 "Invalid credentials" s
  | some user =>
    let row : TokenRow :=
      { id := env.freshTokenId, token := env.resetTokenHex,
        expiresAt := env.now + 1000 * 60 * 60, userId := user.id }
    let s1 := { s with passwordResetTokens := row :: s.passwordResetTokens }
    let resetURL := env.clientUrl ++ "/reset-password/" ++ env.resetTokenHex
    { resp := { status := 200, success := true,
                message := "Password reset link sent to your email",
                userData := none },
      cookies := [],
      emails := [Sent.passwordReset user.email resetURL],
      store := s1 }

/-- The findFirst condition of resetPassword: the row carries the
submitted token and is unexpired. -/
def matchesReset (token : String) (now : Nat) (t : TokenRow) : Bool :=
  t.token == token && decide (now < t.expiresAt)

/-- auth.controller resetPassword: validate, findFirst an unexpired row
with the submitted token, store the bcrypt hash of the new password on
that row's user, delete the consumed row, email a confirmation if the
user still exists, respond 200. -/
def resetPassword (env : Env) (req : ResetPasswordReq) (s : Store) : Outcome :=
  if req.token.isEmpty || req.password.isEmpty then
    errOut 400 "Reset token and new password are required" s
  else match s.passwordResetTokens.find?
      (matchesReset req.token env.now) with
  | none => errOut 400 "Invalid or expired reset token" s
  | some resetToken =>
    let hashedPassword := bcryptHash req.password 10
    let s1 := setPassword s resetToken.userId hashedPassword
    let s2 := { s1 with passwordResetTokens :=
      s1.passwordResetTokens.filter (fun t => t.id ≠ resetToken.id) }
    let emails := match findUserById s2 resetToken.userId with
      | some user => [Sent.resetSuccess user.email]
      | none => []
    { resp := { status := 200, success := true,
                message := "Password reset successful", userData := none },
      cookies := [],
      emails := emails,
      store := s2 }

/-- jwt.verify token JWT_SECRET at time now: the secret matches and the
token is unexpired. -/
def jwtVerifyOk (tok : SignedToken) (secret : String) (now : Nat) : Bool :=
  tok.secret == secret && decide (now < tok.issuedAt + tok.expiresInSec * 1000)

/-- auth.controller checkAuth: require the token cookie, verify it, look
up the user by the decoded id, respond 200 with the user data; no cookie
is set, no email is sent, the store is never written. -/
def checkAuth (env : Env) (req : CheckAuthReq) (s : Store) : Outcome :=
  match req.cookieToken with
  | none => errOut 401 "Unauthorized – no token provided" s
  | some tok =>
    if !jwtVerifyOk tok env.jwtSecret env.now then
      errOut 401 "Unauthorized – Invalid or expired token" s
    else match findUserById s tok.payload.userId with
    | none => errOut 401 "Unauthorized – User no longer exists" s
    | some user =>
      { resp := { status := 200, success := true,
                  message := "User verified successfully",
                  userData := some { userId := user.id, email := user.email,
                                     isVerified := user.isVerified } },
        cookies := [],
        emails := [],
        store := s }

/-- auth.controller google: require the ID token, take the verified
payload (none models a missing payload), require email, name and
email_verified, then either create a verified user with a bcrypt hash of
a random nanoid placeholder password (sending a welcome email), or mark
an existing unverified user verified; set the session cookie, respond
200. -/
def google (env : Env) (req : GoogleReq) (payload : Option GooglePayload)
    (s : Store) : Outcome :=
  if req.idToken.isEmpty then
    errOut 400 "Google ID token is required" s
  else match payload with
  | none => errOut 400 "Invalid Google token payload" s
  | some p =>
    if p.email.isEmpty || p.name.isEmpty then
      errOut 400 "Google account must have an email and name" s
    else if !p.email_verified then
      errOut 403 "Email not verified by Google" s
    else match findUserByEmail s p.email with
    | none =>
      let hashedPassword := bcryptHash env.nanoidVal 10
      let user : User :=
        { id := env.freshUserId, email := p.email,
          password := hashedPassword, name := p.name, isVerified := true }
      let s1 := { s with users := user :: s.users }
      let tc := generateTokenAndSetCookie env user.id user.email
      { resp := { status := 200, success := true,
                  message := "User logged in successfully",
                  userData := some { userId := user.id, email := user.email,
                                     isVerified := true } },
        cookies := [tc.2],
        emails := [Sent.welcome user.email user.name],
        store := s1 }
    | some user0 =>
      let user := if user0.isVerified then user0
        else { user0 with isVerified := true }
      let s1 := if user0.isVerified then s else markVerified s user0.id
      let tc := generateTokenAndSetCookie env user.id user.email
      { resp := { status := 200, success := true,
                  message := "User logged in successfully",
                  userData := some { userId := user.id, email := user.email,
                                     isVerified := true } },
        cookies := [tc.2],
        emails := [],
        store := s1 }

/-- C1: generateTokenAndSetCookie signs a token whose payload is exactly
the given user id and email with the JWT secret, sets it as a cookie
named "token" with httpOnly true, and returns that signed token. -/
theorem generateTokenAndSetCookie_signs_and_sets (env : Env)
    (userId email : String) :
    (generateTokenAndSetCookie env userId email).1.payload =
      { userId := userId, email := email } ∧
    (generateTokenAndSetCookie env userId email).1.secret = env.jwtSecret ∧
    ∃ opts : CookieOpts,
      (generateTokenAndSetCookie env userId email).2 =
        CookieAction.set "token" (generateTokenAndSetCookie env userId email).1
          opts ∧
      opts.httpOnly = true := by
  refine ⟨rfl, rfl, _, rfl, rfl⟩

/-- The bounds of Math.floor(100000 + Math.random() * 900000). -/
theorem verificationCode_bounds (r : ℚ) (h0 : 0 ≤ r) (h1 : r < 1) :
    100000 ≤ verificationCode r ∧ verificationCode r ≤ 999999 := by
  unfold verificationCode
  have hlo : (100000 : ℤ) ≤ Int.floor ((100000 : ℚ) + r * 900000) := by
    rw [Int.le_floor]
    push_cast
    nlinarith
  have hhi : Int.floor ((100000 : ℚ) + r * 900000) < 1000000 := by
    rw [Int.floor_lt]
    push_cast
    nlinarith
  omega

/-- A natural number between 100000 and 999999 has exactly six decimal
digits. -/
theorem six_decimal_digits {n : ℕ} (hlo : 100000 ≤ n) (hhi : n ≤ 999999) :
    (Nat.digits 10 n).length = 6 := by
  rw [Nat.digits_len 10 n (by norm_num) (by omega)]
  have hlog : Nat.log 10 n = 5 := by
    apply Nat.log_eq_of_pow_le_of_lt_pow
    · norm_num
      omega
    · norm_num
      omega
  omega

/-- The newly inserted verification row is well formed: its token is the
decimal string of a six digit number in range and it expires 24 hours
after issuance. -/
def goodVerificationRow (env : Env) (row : TokenRow) : Prop :=
  ∃ n : ℕ, row.token = Nat.repr n ∧ 100000 ≤ n ∧ n ≤ 999999 ∧
    (Nat.digits 10 n).length = 6 ∧
    row.expiresAt = env.now + 1000 * 60 * 60 * 24

/-- C9: every verification code generated by signup or
regenerateVerificationToken is the decimal string of an integer between
100000 and 999999 inclusive, hence exactly six digits, and the stored
row expires 24 hours from issuance: each handler either leaves the
verification table unchanged or prepends one such well formed row. -/
theorem verification_codes_six_digits_24h (env : Env) (h0 : 0 ≤ env.rand)
    (h1 : env.rand < 1) :
    (∀ (req : SignupReq) (s : Store),
      (signup env req s).store.verificationTokens = s.verificationTokens ∨
      ∃ row, (signup env req s).store.verificationTokens =
          row :: s.verificationTokens ∧ goodVerificationRow env row) ∧
    (∀ (req : EmailReq) (s : Store),
      (regenerateVerificationToken env req s).store.verificationTokens =
        s.verificationTokens ∨
      ∃ row, (regenerateVerificationToken env req s).store.verificationTokens =
          row :: s.verificationTokens ∧ goodVerificationRow env row) := by
  have hb := verificationCode_bounds env.rand h0 h1
  have hgood : goodVerificationRow env
      { id := env.freshTokenId, token := Nat.repr (verificationCode env.rand),
        expiresAt := env.now + 1000 * 60 * 60 * 24,
        userId := env.freshUserId } :=
    ⟨verificationCode env.rand, rfl, hb.1, hb.2,
      six_decimal_digits hb.1 hb.2, rfl⟩
  constructor
  · intro req s
    unfold signup
    split
    · exact Or.inl rfl
    split
    · exact Or.inl rfl
    split
    · exact Or.inl rfl
    · exact Or.inr ⟨_, rfl, ⟨verificationCode env.rand, rfl, hb.1, hb.2,
        six_decimal_digits hb.1 hb.2, rfl⟩⟩
  · intro req s
    unfold regenerateVerificationToken
    split
    · exact Or.inl rfl
    split
    · exact Or.inl rfl
    split
    · exact Or.inl rfl
    split
    · exact Or.inl rfl
    · exact Or.inr ⟨_, rfl, ⟨verificationCode env.rand, rfl, hb.1, hb.2,
        six_decimal_digits hb.1 hb.2, rfl⟩⟩

/-- A concrete email format check for concrete evaluations: accepts a
small whitelist of well formed addresses. -/
def demoIsEmail (s : String) : Bool := s == "a@b.com" || s == "b@c.com"

/-- A concrete per-request environment. -/
def demoEnv : Env :=
  { now := 1000, jwtSecret := "secret", isEmail := demoIsEmail, rand := 0,
    freshUserId := "u-new", freshTokenId := "t-new",
    resetTokenHex := "deadbeef", nanoidVal := "abcd1234",
    isProduction := false, cookieDomain := "example.com",
    clientUrl := "https://app.example" }

/-- A concrete persisted user. -/
def demoUser : User :=
  { id := "u1", email := "a@b.com", password := Password.hashed "pw" 10,
    name := "Alice", isVerified := false }

/-- The empty store. -/
def emptyStore : Store :=
  { users := [], verificationTokens := [], passwordResetTokens := [] }

/-- A concrete store with one user, one verification code and one reset
token, all unexpired at demoEnv.now. -/
def demoStore : Store :=
  { users := [demoUser],
    verificationTokens := [⟨"t1", "123456", 2000, "u1"⟩],
    passwordResetTokens := [⟨"r1", "deadbeef", 2000, "u1"⟩] }

/-- A cookie action is either a clear, or sets a token that expires in
exactly 7 days, with a cookie maxAge of exactly 7 days in milliseconds. -/
def issued7Day : CookieAction → Prop
  | CookieAction.set _ tok opts =>
      tok.expiresInSec = 60 * 60 * 24 * 7 ∧
      opts.maxAge = some (1000 * 60 * 60 * 24 * 7)
  | CookieAction.clear _ _ => True

theorem signup_cookies_7d (env : Env) (req : SignupReq) (s : Store) :
    ∀ a ∈ (signup env req s).cookies, issued7Day a := by
  intro a ha
  unfold signup at ha
  split at ha
  · simp [errOut] at ha
  split at ha
  · simp [errOut] at ha
  split at ha
  · simp [errOut] at ha
  · simp at ha
    subst ha
    exact ⟨rfl, rfl⟩

theorem verifyEmail_cookies_7d (env : Env) (req : VerifyEmailReq)
    (s : Store) : ∀ a ∈ (verifyEmail env req s).cookies, issued7Day a := by
  intro a ha
  unfold verifyEmail at ha
  split at ha
  · simp [errOut] at ha
  split at ha
  · simp [errOut] at ha
  split at ha
  · simp [errOut] at ha
  split at ha
  · simp [errOut] at ha
  · simp at ha
    subst ha
    exact ⟨rfl, rfl⟩

theorem regenerate_cookies_7d (env : Env) (req : EmailReq) (s : Store) :
    ∀ a ∈ (regenerateVerificationToken env req s).cookies, issued7Day a := by
  intro a ha
  unfold regenerateVerificationToken at ha
  split at ha
  · simp [errOut] at ha
  split at ha
  · simp [errOut] at ha
  split at ha
  · simp [errOut] at ha
  split at ha
  · simp [errOut] at ha
  · simp at ha

theorem logout_cookies_7d (env : Env) (s : Store) :
    ∀ a ∈ (logout env s).cookies, issued7Day a := by
  intro a ha
  simp [logout] at ha
  subst ha
  trivial

theorem login_cookies_7d (env : Env) (req : LoginReq) (s : Store) :
    ∀ a ∈ (login env req s).cookies, issued7Day a := by
  intro a ha
  unfold login at ha
  split at ha
  · simp [errOut] at ha
  split at ha
  · simp [errOut] at ha
  split at ha
  · simp [errOut] at ha
  split at ha
  · simp [errOut] at ha
  · simp at ha
    subst ha
    exact ⟨rfl, rfl⟩

theorem forgotPassword_cookies_7d (env : Env) (req : EmailReq) (s : Store) :
    ∀ a ∈ (forgotPassword env req s).cookies, issued7Day a := by
  intro a ha
  unfold forgotPassword at ha
  split at ha
  · simp [errOut] at ha
  split at ha
  · simp [errOut] at ha
  split at ha
  · simp [errOut] at ha
  · simp at ha

theorem resetPassword_cookies_7d (env : Env) (req : ResetPasswordReq)
    (s : Store) : ∀ a ∈ (resetPassword env req s).cookies, issued7Day a := by
  intro a ha
  unfold resetPassword at ha
  split at ha
  · simp [errOut] at ha
  split at ha
  · simp [errOut] at ha
  · simp at ha

theorem checkAuth_cookies_empty (env : Env) (req : CheckAuthReq) (s : Store) :
    (checkAuth env req s).cookies = [] := by
  unfold checkAuth
  split
  · rfl
  split
  · rfl
  split
  · rfl
  · rfl

theorem google_cookies_7d (env : Env) (req : GoogleReq)
    (p : Option GooglePayload) (s : Store) :
    ∀ a ∈ (google env req p s).cookies, issued7Day a := by
  intro a ha
  unfold google at ha
  split at ha
  · simp [errOut] at ha
  split at ha
  · simp [errOut] at ha
  split at ha
  · simp [errOut] at ha
  split at ha
  · simp [errOut] at ha
  split at ha
  · simp at ha
    subst ha
    exact ⟨rfl, rfl⟩
  · simp at ha
    subst ha
    exact ⟨rfl, rfl⟩

/-- C5: every issued session has the single fixed 7-day expiry: the
signed token expires in 7 days, the cookie maxAge is 7 days in
milliseconds, every cookie any handler sets satisfies this, and
checkAuth (the only reader of an existing session) never sets or
refreshes a cookie. -/
theorem sessions_fixed_7_day_expiry :
    (∀ (env : Env) (userId email : String),
      (generateTokenAndSetCookie env userId email).1.expiresInSec =
        60 * 60 * 24 * 7 ∧
      issued7Day (generateTokenAndSetCookie env userId email).2) ∧
    (∀ env req s, ∀ a ∈ (signup env req s).cookies, issued7Day a) ∧
    (∀ env req s, ∀ a ∈ (verifyEmail env req s).cookies, issued7Day a) ∧
    (∀ env req s,
      ∀ a ∈ (regenerateVerificationToken env req s).cookies, issued7Day a) ∧
    (∀ env s, ∀ a ∈ (logout env s).cookies, issued7Day a) ∧
    (∀ env req s, ∀ a ∈ (login env req s).cookies, issued7Day a) ∧
    (∀ env req s, ∀ a ∈ (forgotPassword env req s).cookies, issued7Day a) ∧
    (∀ env req s, ∀ a ∈ (resetPassword env req s).cookies, issued7Day a) ∧
    (∀ env req p s, ∀ a ∈ (google env req p s).cookies, issued7Day a) ∧
    (∀ env req s, (checkAuth env req s).cookies = []) :=
  ⟨fun _ _ _ => ⟨rfl, rfl, rfl⟩, signup_cookies_7d, verifyEmail_cookies_7d,
    regenerate_cookies_7d, logout_cookies_7d, login_cookies_7d,
    forgotPassword_cookies_7d, resetPassword_cookies_7d, google_cookies_7d,
    checkAuth_cookies_empty⟩

/-- The session cookie produced in a concrete signup. -/
def demoCookie : CookieAction :=
  (generateTokenAndSetCookie demoEnv "u-new" "a@b.com").2

theorem sessions_fixed_7_day_expiry_witness : issued7Day demoCookie :=
  sessions_fixed_7_day_expiry.2.1 demoEnv
    { email := "a@b.com", password := "pw", name := "Alice" } emptyStore
    demoCookie (by decide)

theorem signup_validation_frame (env : Env) (req : SignupReq) (s : Store)
    (hfail : (req.email.isEmpty || req.name.isEmpty || req.password.isEmpty
      || !env.isEmail req.email) = true) :
    (signup env req s).resp.status = 400 ∧ (signup env req s).store = s ∧
    (signup env req s).emails = [] ∧
    ∀ s', (signup env req s').resp = (signup env req s).resp := by
  have key : ∀ t : Store, signup env req t =
      errOut 400
        (if req.email.isEmpty || req.name.isEmpty || req.password.isEmpty
          then "All fields are required" else "Please enter a valid email")
        t := by
    intro t
    unfold signup
    split
    · rename_i hc
      simp [hc]
    · rename_i hc
      have hd : (!env.isEmail req.email) = true := by
        cases hde : env.isEmail req.email with
        | false => rfl
        | true =>
          exfalso
          apply hc
          simpa [hde] using hfail
      simp [hd, hc]
  refine ⟨by rw [key s]; rfl, by rw [key s]; rfl, by rw [key s]; rfl,
    fun s' => by rw [key s, key s']; rfl⟩

theorem verifyEmail_validation_frame (env : Env) (req : VerifyEmailReq)
    (s : Store)
    (hfail : (req.code.isEmpty || req.email.isEmpty
      || !env.isEmail req.email) = true) :
    (verifyEmail env req s).resp.status = 400 ∧
    (verifyEmail env req s).store = s ∧
    (verifyEmail env req s).emails = [] ∧
    ∀ s', (verifyEmail env req s').resp = (verifyEmail env req s).resp := by
  have key : ∀ t : Store, verifyEmail env req t =
      errOut 400
        (if req.code.isEmpty || req.email.isEmpty
          then "Please fill all the details" else "Please enter a valid email")
        t := by
    intro t
    unfold verifyEmail
    split
    · rename_i hc
      simp [hc]
    · rename_i hc
      have hd : (!env.isEmail req.email) = true := by
        cases hde : env.isEmail req.email with
        | false => rfl
        | true =>
          exfalso
          apply hc
          simpa [hde] using hfail
      simp [hd, hc]
  refine ⟨by rw [key s]; rfl, by rw [key s]; rfl, by rw [key s]; rfl,
    fun s' => by rw [key s, key s']; rfl⟩

theorem regenerate_validation_frame (env : Env) (req : EmailReq) (s : Store)
    (hfail : (req.email.isEmpty || !env.isEmail req.email) = true) :
    (regenerateVerificationToken env req s).resp.status = 400 ∧
    (regenerateVerificationToken env req s).store = s ∧
    (regenerateVerificationToken env req s).emails = [] ∧
    ∀ s', (regenerateVerificationToken env req s').resp =
      (regenerateVerificationToken env req s).resp := by
  have key : ∀ t : Store, regenerateVerificationToken env req t =
      errOut 400
        (if req.email.isEmpty
          then "Please fill all the details" else "Please enter a valid email")
        t := by
    intro t
    unfold regenerateVerificationToken
    split
    · rename_i hc
      simp [hc]
    · rename_i hc
      have hd : (!env.isEmail req.email) = true := by
        cases hde : env.isEmail req.email with
        | false => rfl
        | true =>
          exfalso
          apply hc
          simpa [hde] using hfail
      simp [hd, hc]
  refine ⟨by rw [key s]; rfl, by rw [key s]; rfl, by rw [key s]; rfl,
    fun s' => by rw [key s, key s']; rfl⟩

theorem login_validation_frame (env : Env) (req : LoginReq) (s : Store)
    (hfail : (req.email.isEmpty || req.password.isEmpty
      || !env.isEmail req.email) = true) :
    (login env req s).resp.status = 400 ∧ (login env req s).store = s ∧
    (login env req s).emails = [] ∧
    ∀ s', (login env req s').resp = (login env req s).resp := by
  have key : ∀ t : Store, login env req t =
      errOut 400
        (if req.email.isEmpty || req.password.isEmpty
          then "Please provide both email and password"
          else "Please enter a valid email")
        t := by
    intro t
    unfold login
    split
    · rename_i hc
      simp [hc]
    · rename_i hc
      have hd : (!env.isEmail req.email) = true := by
        cases hde : env.isEmail req.email with
        | false => rfl
        | true =>
          exfalso
          apply hc
          simpa [hde] using hfail
      simp [hd, hc]
  refine ⟨by rw [key s]; rfl, by rw [key s]; rfl, by rw [key s]; rfl,
    fun s' => by rw [key s, key s']; rfl⟩

theorem forgotPassword_validation_frame (env : Env) (req : EmailReq)
    (s : Store)
    (hfail : (req.email.isEmpty || !env.isEmail req.email) = true) :
    (forgotPassword env req s).resp.status = 400 ∧
    (forgotPassword env req s).store = s ∧
    (forgotPassword env req s).emails = [] ∧
    ∀ s', (forgotPassword env req s').resp =
      (forgotPassword env req s).resp := by
  have key : ∀ t : Store, forgotPassword env req t =
      errOut 400
        (if req.email.isEmpty
          then "Email is required" else "Please enter a valid email") t := by
    intro t
    unfold forgotPassword
    split
    · rename_i hc
      simp [hc]
    · rename_i hc
      have hd : (!env.isEmail req.email) = true := by
        cases hde : env.isEmail req.email with
        | false => rfl
        | true =>
          exfalso
          apply hc
          simpa [hde] using hfail
      simp [hd, hc]
  refine ⟨by rw [key s]; rfl, by rw [key s]; rfl, by rw [key s]; rfl,
    fun s' => by rw [key s, key s']; rfl⟩

theorem resetPassword_validation_frame (env : Env) (req : ResetPasswordReq)
    (s : Store)
    (hfail : (req.token.isEmpty || req.password.isEmpty) = true) :
    (resetPassword env req s).resp.status = 400 ∧
    (resetPassword env req s).store = s ∧
    (resetPassword env req s).emails = [] ∧
    ∀ s', (resetPassword env req s').resp =
      (resetPassword env req s).resp := by
  have key : ∀ t : Store, resetPassword env req t =
      errOut 400 "Reset token and new password are required" t := by
    intro t
    unfold resetPassword
    split
    · rfl
    · rename_i hc
      exact absurd hfail hc
  refine ⟨by rw [key s]; rfl, by rw [key s]; rfl, by rw [key s]; rfl,
    fun s' => by rw [key s, key s']; rfl⟩

theorem google_validation_frame (env : Env) (req : GoogleReq)
    (p : Option GooglePayload) (s : Store)
    (hfail : req.idToken.isEmpty = true) :
    (google env req p s).resp.status = 400 ∧
    (google env req p s).store = s ∧
    (google env req p s).emails = [] ∧
    ∀ s', (google env req p s').resp = (google env req p s).resp := by
  have key : ∀ t : Store, google env req p t =
      errOut 400 "Google ID token is required" t := by
    intro t
    unfold google
    split
    · rfl
    · rename_i hc
      exact absurd hfail hc
  refine ⟨by rw [key s]; rfl, by rw [key s]; rfl, by rw [key s]; rfl,
    fun s' => by rw [key s, key s']; rfl⟩

/-- C6: validation precedes all store access: whenever a required body
field is missing (empty) or the supplied email fails the format check,
the handler responds 400, the store is returned exactly as it was, no
email is sent, and the response is the same whatever the store contains
(so no store read influenced it). -/
theorem validation_precedes_store_access :
    (∀ env (req : SignupReq) s,
      (req.email.isEmpty || req.name.isEmpty || req.password.isEmpty
        || !env.isEmail req.email) = true →
      (signup env req s).resp.status = 400 ∧ (signup env req s).store = s ∧
      (signup env req s).emails = [] ∧
      ∀ s', (signup env req s').resp = (signup env req s).resp) ∧
    (∀ env (req : VerifyEmailReq) s,
      (req.code.isEmpty || req.email.isEmpty
        || !env.isEmail req.email) = true →
      (verifyEmail env req s).resp.status = 400 ∧
      (verifyEmail env req s).store = s ∧
      (verifyEmail env req s).emails = [] ∧
      ∀ s', (verifyEmail env req s').resp = (verifyEmail env req s).resp) ∧
    (∀ env (req : EmailReq) s,
      (req.email.isEmpty || !env.isEmail req.email) = true →
      (regenerateVerificationToken env req s).resp.status = 400 ∧
      (regenerateVerificationToken env req s).store = s ∧
      (regenerateVerificationToken env req s).emails = [] ∧
      ∀ s', (regenerateVerificationToken env req s').resp =
        (regenerateVerificationToken env req s).resp) ∧
    (∀ env (req : LoginReq) s,
      (req.email.isEmpty || req.password.isEmpty
        || !env.isEmail req.email) = true →
      (login env req s).resp.status = 400 ∧ (login env req s).store = s ∧
      (login env req s).emails = [] ∧
      ∀ s', (login env req s').resp = (login env req s).resp) ∧
    (∀ env (req : EmailReq) s,
      (req.email.isEmpty || !env.isEmail req.email) = true →
      (forgotPassword env req s).resp.status = 400 ∧
      (forgotPassword env req s).store = s ∧
      (forgotPassword env req s).emails = [] ∧
      ∀ s', (forgotPassword env req s').resp =
        (forgotPassword env req s).resp) ∧
    (∀ env (req : ResetPasswordReq) s,
      (req.token.isEmpty || req.password.isEmpty) = true →
      (resetPassword env req s).resp.status = 400 ∧
      (resetPassword env req s).store = s ∧
      (resetPassword env req s).emails = [] ∧
      ∀ s', (resetPassword env req s').resp =
        (resetPassword env req s).resp) ∧
    (∀ env (req : GoogleReq) p s, req.idToken.isEmpty = true →
      (google env req p s).resp.status = 400 ∧
      (google env req p s).store = s ∧
      (google env req p s).emails = [] ∧
      ∀ s', (google env req p s').resp = (google env req p s).resp) :=
  ⟨fun env req s h => signup_validation_frame env req s h,
   fun env req s h => verifyEmail_validation_frame env req s h,
   fun env req s h => regenerate_validation_frame env req s h,
   fun env req s h => login_validation_frame env req s h,
   fun env req s h => forgotPassword_validation_frame env req s h,
   fun env req s h => resetPassword_validation_frame env req s h,
   fun env req p s h => google_validation_frame env req p s h⟩

theorem validation_precedes_store_access_witness :
    (signup demoEnv { email := "", password := "pw", name := "Alice" }
      demoStore).resp.status = 400 ∧
    (signup demoEnv { email := "", password := "pw", name := "Alice" }
      demoStore).store = demoStore ∧
    (signup demoEnv { email := "", password := "pw", name := "Alice" }
      demoStore).emails = [] :=
  ⟨(validation_precedes_store_access.1 demoEnv
      { email := "", password := "pw", name := "Alice" } demoStore
      (by decide)).1,
   (validation_precedes_store_access.1 demoEnv
      { email := "", password := "pw", name := "Alice" } demoStore
      (by decide)).2.1,
   (validation_precedes_store_access.1 demoEnv
      { email := "", password := "pw", name := "Alice" } demoStore
      (by decide)).2.2.1⟩

theorem matchesVerification_iff (userId code : String) (now : Nat)
    (t : TokenRow) :
    matchesVerification userId code now t = true ↔
      t.userId = userId ∧ t.token = code ∧ now < t.expiresAt := by
  simp [matchesVerification, Bool.and_eq_true, beq_iff_eq,
    decide_eq_true_eq, and_assoc]

theorem matchesReset_iff (token : String) (now : Nat) (t : TokenRow) :
    matchesReset token now t = true ↔
      t.token = token ∧ now < t.expiresAt := by
  simp [matchesReset, Bool.and_eq_true, beq_iff_eq, decide_eq_true_eq]

theorem verifyEmail_noMatch_403 (env : Env) (req : VerifyEmailReq)
    (s : Store) (user : User)
    (hc : req.code.isEmpty = false) (he : req.email.isEmpty = false)
    (hv : env.isEmail req.email = true)
    (hu : findUserByEmail s req.email = some user)
    (hnone : s.verificationTokens.find?
      (matchesVerification user.id req.code env.now) = none) :
    verifyEmail env req s =
      errOut 403 "Invalid or expired verification code" s := by
  unfold verifyEmail
  simp [hc, he, hv, hu, hnone]

theorem verifyEmail_success_iff (env : Env) (req : VerifyEmailReq)
    (s : Store) (user : User)
    (hc : req.code.isEmpty = false) (he : req.email.isEmpty = false)
    (hv : env.isEmail req.email = true)
    (hu : findUserByEmail s req.email = some user) :
    (verifyEmail env req s).resp.status = 200 ↔
      ∃ t ∈ s.verificationTokens,
        t.userId = user.id ∧ t.token = req.code ∧ env.now < t.expiresAt := by
  cases hfind : s.verificationTokens.find?
      (matchesVerification user.id req.code env.now) with
  | none =>
    rw [verifyEmail_noMatch_403 env req s user hc he hv hu hfind]
    constructor
    · intro h
      simp [errOut] at h
    · intro hex
      exfalso
      obtain ⟨t, ht, h1, h2, h3⟩ := hex
      have hn := List.find?_eq_none.mp hfind t ht
      rw [matchesVerification_iff] at hn
      exact hn ⟨h1, h2, h3⟩
  | some v =>
    have hmem := List.mem_of_find?_eq_some hfind
    have hp := List.find?_some hfind
    rw [matchesVerification_iff] at hp
    have h200 : (verifyEmail env req s).resp.status = 200 := by
      unfold verifyEmail
      simp [hc, he, hv, hu, hfind]
    constructor
    · intro _
      exact ⟨v, hmem, hp⟩
    · intro _
      exact h200

/-- C2: under the field and email-format validation and with the user
looked up, verifyEmail succeeds exactly when a stored verification row
has that user's id, the submitted code and an expiry strictly in the
future; when no such row exists, it responds 403 with the message
"Invalid or expired verification code" and the store, including the
verification flag and token table, is returned unchanged. -/
theorem verifyEmail_iff_valid_row (env : Env) (req : VerifyEmailReq)
    (s : Store) (user : User)
    (hc : req.code.isEmpty = false) (he : req.email.isEmpty = false)
    (hv : env.isEmail req.email = true)
    (hu : findUserByEmail s req.email = some user) :
    ((verifyEmail env req s).resp.status = 200 ↔
      ∃ t ∈ s.verificationTokens,
        t.userId = user.id ∧ t.token = req.code ∧ env.now < t.expiresAt) ∧
    ((¬ ∃ t ∈ s.verificationTokens,
        t.userId = user.id ∧ t.token = req.code ∧ env.now < t.expiresAt) →
      (verifyEmail env req s).resp.status = 403 ∧
      (verifyEmail env req s).resp.message =
        "Invalid or expired verification code" ∧
      (verifyEmail env req s).store = s) := by
  refine ⟨verifyEmail_success_iff env req s user hc he hv hu, fun hnex => ?_⟩
  have hnone : s.verificationTokens.find?
      (matchesVerification user.id req.code env.now) = none := by
    rw [List.find?_eq_none]
    intro t ht hmatch
    rw [matchesVerification_iff] at hmatch
    exact hnex ⟨t, ht, hmatch⟩
  rw [verifyEmail_noMatch_403 env req s user hc he hv hu hnone]
  exact ⟨rfl, rfl, rfl⟩

theorem verifyEmail_iff_valid_row_witness :
    (verifyEmail demoEnv { code := "123456", email := "a@b.com" }
      demoStore).resp.status = 200 :=
  (verifyEmail_iff_valid_row demoEnv { code := "123456", email := "a@b.com" }
      demoStore demoUser (by decide) (by decide) (by decide)
      (by decide)).1.mpr
    ⟨⟨"t1", "123456", 2000, "u1"⟩, by decide, by decide, by decide, by decide⟩

theorem login_store_unchanged (env : Env) (req : LoginReq) (s : Store) :
    (login env req s).store = s := by
  unfold login
  split
  · rfl
  split
  · rfl
  split
  · rfl
  split
  · rfl
  · rfl

/-- C8: under the field and email-format validation, login responds 400
"User does not exist" when no user record has the email, 400 "Invalid
credentials" when the password does not match the stored bcrypt hash,
and otherwise sets the session cookie and responds 200 with the user's
id, email and verification flag; the store is unchanged in every case. -/
theorem login_credential_validation (env : Env) (req : LoginReq) (s : Store)
    (he : req.email.isEmpty = false) (hp : req.password.isEmpty = false)
    (hv : env.isEmail req.email = true) :
    (login env req s).store = s ∧
    (findUserByEmail s req.email = none →
      (login env req s).resp =
        { status := 400, success := false, message := "User does not exist",
          userData := none }) ∧
    (∀ user, findUserByEmail s req.email = some user →
      bcryptCompare req.password user.password = false →
      (login env req s).resp =
        { status := 400, success := false, message := "Invalid credentials",
          userData := none }) ∧
    (∀ user, findUserByEmail s req.email = some user →
      bcryptCompare req.password user.password = true →
      (login env req s).resp =
        { status := 200, success := true,
          message := "User logged in successfully",
          userData := some { userId := user.id, email := user.email,
                             isVerified := user.isVerified } } ∧
      (login env req s).cookies =
        [(generateTokenAndSetCookie env user.id user.email).2]) := by
  refine ⟨login_store_unchanged env req s, ?_, ?_, ?_⟩
  · intro hnone
    unfold login
    simp [he, hp, hv, hnone, errOut]
  · intro user hu hbad
    unfold login
    simp [he, hp, hv, hu, hbad, errOut]
  · intro user hu hok
    unfold login
    simp [he, hp, hv, hu, hok]

theorem login_credential_validation_witness :
    (login demoEnv { email := "a@b.com", password := "pw" }
      demoStore).resp =
      { status := 200, success := true,
        message := "User logged in successfully",
        userData := some { userId := "u1", email := "a@b.com",
                           isVerified := false } } :=
  ((login_credential_validation demoEnv
      { email := "a@b.com", password := "pw" } demoStore (by decide)
      (by decide) (by decide)).2.2.2 demoUser (by decide) (by decide)).1

/-- Every persisted user record carries a bcrypt-hashed password, never a
plaintext value. -/
def storedPasswordsHashed (s : Store) : Prop :=
  ∀ u ∈ s.users, ∃ p c, u.password = Password.hashed p c

theorem signup_preserves_hashed (env : Env) (req : SignupReq) (s : Store)
    (h : storedPasswordsHashed s) :
    storedPasswordsHashed (signup env req s).store := by
  unfold signup
  split
  · exact h
  split
  · exact h
  split
  · exact h
  · intro u hu
    simp only [List.mem_cons] at hu
    rcases hu with rfl | hu
    · exact ⟨req.password, 10, rfl⟩
    · exact h u hu

theorem resetPassword_preserves_hashed (env : Env) (req : ResetPasswordReq)
    (s : Store) (h : storedPasswordsHashed s) :
    storedPasswordsHashed (resetPassword env req s).store := by
  unfold resetPassword
  split
  · exact h
  split
  · exact h
  · rename_i validToken heq
    intro u hu
    simp only [setPassword, List.mem_map] at hu
    obtain ⟨u0, hu0, rfl⟩ := hu
    by_cases hid : u0.id = validToken.userId
    · simp only [hid, if_true]
      exact ⟨req.password, 10, rfl⟩
    · simp only [hid, if_false]
      exact h u0 hu0

theorem google_preserves_hashed (env : Env) (req : GoogleReq)
    (p : Option GooglePayload) (s : Store) (h : storedPasswordsHashed s) :
    storedPasswordsHashed (google env req p s).store := by
  unfold google
  split
  · exact h
  split
  · exact h
  split
  · exact h
  split
  · exact h
  split
  · intro u hu
    simp only [List.mem_cons] at hu
    rcases hu with rfl | hu
    · exact ⟨env.nanoidVal, 10, rfl⟩
    · exact h u hu
  · rename_i user0 _
    by_cases hver : user0.isVerified
    · simp only [hver, if_true]
      exact h
    · simp only [hver, if_false, Bool.false_eq_true]
      intro u hu
      simp only [markVerified, List.mem_map] at hu
      obtain ⟨u0, hu0, rfl⟩ := hu
      by_cases hid : u0.id = user0.id
      · simp only [hid, if_true]
        obtain ⟨q, c, hq⟩ := h u0 hu0
        exact ⟨q, c, by simp [hq]⟩
      · simp only [hid, if_false]
        exact h u0 hu0

theorem verifyEmail_preserves_hashed (env : Env) (req : VerifyEmailReq)
    (s : Store) (h : storedPasswordsHashed s) :
    storedPasswordsHashed (verifyEmail env req s).store := by
  unfold verifyEmail
  split
  · exact h
  split
  · exact h
  split
  · exact h
  split
  · exact h
  · intro u hu
    simp only [markVerified, List.mem_map] at hu
    obtain ⟨u0, hu0, rfl⟩ := hu
    split
    · obtain ⟨q, c, hq⟩ := h u0 hu0
      exact ⟨q, c, hq⟩
    · exact h u0 hu0

theorem regenerate_preserves_hashed (env : Env) (req : EmailReq) (s : Store)
    (h : storedPasswordsHashed s) :
    storedPasswordsHashed (regenerateVerificationToken env req s).store := by
  unfold regenerateVerificationToken
  split
  · exact h
  split
  · exact h
  split
  · exact h
  split
  · exact h
  · exact h

theorem logout_preserves_hashed (env : Env) (s : Store)
    (h : storedPasswordsHashed s) :
    storedPasswordsHashed (logout env s).store := h

theorem login_preserves_hashed (env : Env) (req : LoginReq) (s : Store)
    (h : storedPasswordsHashed s) :
    storedPasswordsHashed (login env req s).store := by
  rw [login_store_unchanged env req s]
  exact h

theorem forgotPassword_preserves_hashed (env : Env) (req : EmailReq)
    (s : Store) (h : storedPasswordsHashed s) :
    storedPasswordsHashed (forgotPassword env req s).store := by
  unfold forgotPassword
  split
  · exact h
  split
  · exact h
  split
  · exact h
  · exact h

theorem checkAuth_preserves_hashed (env : Env) (req : CheckAuthReq)
    (s : Store) (h : storedPasswordsHashed s) :
    storedPasswordsHashed (checkAuth env req s).store := by
  unfold checkAuth
  split
  · exact h
  split
  · exact h
  split
  · exact h
  · exact h

/-- C4: every operation that writes a password field (signup,
resetPassword, Google sign-in user creation) stores a bcrypt hash, never
a plaintext value, and every other handler leaves stored passwords
untouched, so the invariant that all persisted user records hold hashed
passwords is preserved by all nine handlers. -/
theorem password_writes_are_hashed :
    (∀ env (req : SignupReq) s, storedPasswordsHashed s →
      storedPasswordsHashed (signup env req s).store) ∧
    (∀ env (req : ResetPasswordReq) s, storedPasswordsHashed s →
      storedPasswordsHashed (resetPassword env req s).store) ∧
    (∀ env (req : GoogleReq) p s, storedPasswordsHashed s →
      storedPasswordsHashed (google env req p s).store) ∧
    (∀ env (req : VerifyEmailReq) s, storedPasswordsHashed s →
      storedPasswordsHashed (verifyEmail env req s).store) ∧
    (∀ env (req : EmailReq) s, storedPasswordsHashed s →
      storedPasswordsHashed (regenerateVerificationToken env req s).store) ∧
    (∀ env s, storedPasswordsHashed s →
      storedPasswordsHashed (logout env s).store) ∧
    (∀ env (req : LoginReq) s, storedPasswordsHashed s →
      storedPasswordsHashed (login env req s).store) ∧
    (∀ env (req : EmailReq) s, storedPasswordsHashed s →
      storedPasswordsHashed (forgotPassword env req s).store) ∧
    (∀ env (req : CheckAuthReq) s, storedPasswordsHashed s →
      storedPasswordsHashed (checkAuth env req s).store) :=
  ⟨signup_preserves_hashed, resetPassword_preserves_hashed,
    google_preserves_hashed, verifyEmail_preserves_hashed,
    regenerate_preserves_hashed, logout_preserves_hashed,
    login_preserves_hashed, forgotPassword_preserves_hashed,
    checkAuth_preserves_hashed⟩

theorem password_writes_are_hashed_witness :
    storedPasswordsHashed
      (signup demoEnv { email := "a@b.com", password := "pw", name := "Alice" }
        emptyStore).store :=
  password_writes_are_hashed.1 demoEnv
    { email := "a@b.com", password := "pw", name := "Alice" } emptyStore
    (fun u hu => absurd hu (List.not_mem_nil u))

theorem login_no_email (env : Env) (req : LoginReq) (s : Store) :
    (login env req s).emails = [] := by
  unfold login
  split
  · rfl
  split
  · rfl
  split
  · rfl
  split
  · rfl
  · rfl

theorem verifyEmail_no_email (env : Env) (req : VerifyEmailReq) (s : Store) :
    (verifyEmail env req s).emails = [] := by
  unfold verifyEmail
  split
  · rfl
  split
  · rfl
  split
  · rfl
  split
  · rfl
  · rfl

theorem checkAuth_effects (env : Env) (req : CheckAuthReq) (s : Store) :
    (checkAuth env req s).store = s ∧ (checkAuth env req s).emails = [] := by
  unfold checkAuth
  split
  · exact ⟨rfl, rfl⟩
  split
  · exact ⟨rfl, rfl⟩
  split
  · exact ⟨rfl, rfl⟩
  · exact ⟨rfl, rfl⟩

theorem signup_success_sends_email (env : Env) (req : SignupReq) (s : Store)
    (h : (signup env req s).resp.status = 201) :
    (signup env req s).emails ≠ [] := by
  unfold signup at h ⊢
  split at h
  · simp [errOut] at h
  split at h
  · simp [errOut] at h
  split at h
  · simp [errOut] at h
  · simp_all

theorem regenerate_success_sends_email (env : Env) (req : EmailReq)
    (s : Store)
    (h : (regenerateVerificationToken env req s).resp.status = 200) :
    (regenerateVerificationToken env req s).emails ≠ [] := by
  unfold regenerateVerificationToken at h ⊢
  split at h
  · simp [errOut] at h
  split at h
  · simp [errOut] at h
  split at h
  · simp [errOut] at h
  split at h
  · simp [errOut] at h
  · simp_all

theorem forgotPassword_success_sends_email (env : Env) (req : EmailReq)
    (s : Store) (h : (forgotPassword env req s).resp.status = 200) :
    (forgotPassword env req s).emails ≠ [] := by
  unfold forgotPassword at h ⊢
  split at h
  · simp [errOut] at h
  split at h
  · simp [errOut] at h
  split at h
  · simp [errOut] at h
  · simp_all

theorem resetPassword_emails_are_confirmations (env : Env)
    (req : ResetPasswordReq) (s : Store) :
    ∀ e ∈ (resetPassword env req s).emails,
      ∃ a, e = Sent.resetSuccess a := by
  intro e he
  unfold resetPassword at he
  split at he
  · simp [errOut] at he
  split at he
  · simp [errOut] at he
  · simp only [] at he
    split at he
    · simp at he
      subst he
      exact ⟨_, rfl⟩
    · simp at he

theorem google_emails_are_welcomes (env : Env) (req : GoogleReq)
    (p : Option GooglePayload) (s : Store) :
    ∀ e ∈ (google env req p s).emails, ∃ a n, e = Sent.welcome a n := by
  intro e he
  unfold google at he
  split at he
  · simp [errOut] at he
  split at he
  · simp [errOut] at he
  split at he
  · simp [errOut] at he
  split at he
  · simp [errOut] at he
  split at he
  · simp at he
    subst he
    exact ⟨_, _, rfl⟩
  · simp at he

/-- C7 (amended): each of the nine handlers is a single request/response
function over the store, but their effects differ: signup,
regenerate-verification and forgot-password send email on success;
reset-password sends only reset confirmations and Google sign-in sends
only welcome emails; verify-email, login, logout and check-auth send no
email; and logout and check-auth never touch the store, login never
modifies it. -/
theorem handler_effect_profile :
    (∀ env s, (logout env s).store = s ∧ (logout env s).emails = [] ∧
      ∀ s', (logout env s').resp = (logout env s).resp) ∧
    (∀ env (req : LoginReq) s, (login env req s).store = s ∧
      (login env req s).emails = []) ∧
    (∀ env (req : VerifyEmailReq) s, (verifyEmail env req s).emails = []) ∧
    (∀ env (req : CheckAuthReq) s, (checkAuth env req s).store = s ∧
      (checkAuth env req s).emails = []) ∧
    (∀ env (req : SignupReq) s, (signup env req s).resp.status = 201 →
      (signup env req s).emails ≠ []) ∧
    (∀ env (req : EmailReq) s,
      (regenerateVerificationToken env req s).resp.status = 200 →
      (regenerateVerificationToken env req s).emails ≠ []) ∧
    (∀ env (req : EmailReq) s,
      (forgotPassword env req s).resp.status = 200 →
      (forgotPassword env req s).emails ≠ []) ∧
    (∀ env (req : ResetPasswordReq) s,
      ∀ e ∈ (resetPassword env req s).emails,
        ∃ a, e = Sent.resetSuccess a) ∧
    (∀ env (req : GoogleReq) p s,
      ∀ e ∈ (google env req p s).emails, ∃ a n, e = Sent.welcome a n) :=
  ⟨fun _ _ => ⟨rfl, rfl, fun _ => rfl⟩,
   fun env req s => ⟨login_store_unchanged env req s, login_no_email env req s⟩,
   verifyEmail_no_email,
   fun env req s => checkAuth_effects env req s,
   signup_success_sends_email,
   regenerate_success_sends_email,
   forgotPassword_success_sends_email,
   resetPassword_emails_are_confirmations,
   google_emails_are_welcomes⟩

theorem handler_effect_profile_witness :
    (signup demoEnv { email := "b@c.com", password := "pw", name := "Bob" }
      demoStore).emails ≠ [] :=
  handler_effect_profile.2.2.2.2.1 demoEnv
    { email := "b@c.com", password := "pw", name := "Bob" } demoStore
    (by decide)

/-- Counterexample to C7 as stated: logout is one of the nine handlers,
yet on a concrete request it performs no store lookup or mutation and no
email send at all (and its response is store-independent). -/
theorem logout_performs_no_store_op_or_email :
    (logout demoEnv demoStore).store = demoStore ∧
    (logout demoEnv demoStore).emails = [] ∧
    (logout demoEnv demoStore).resp.status = 200 ∧
    (logout demoEnv emptyStore).resp = (logout demoEnv demoStore).resp :=
  ⟨rfl, rfl, rfl, rfl⟩

/-- A store where the same user holds two unexpired verification rows
carrying the same six digit code (possible because regeneration inserts
without deleting and codes are random). -/
def dupStore : Store :=
  { users := [demoUser],
    verificationTokens :=
      [⟨"t1", "123456", 2000, "u1"⟩, ⟨"t2", "123456", 2000, "u1"⟩],
    passwordResetTokens := [] }

/-- Counterexample to C3 as stated: with two stored rows for the same
user carrying the same code, the first verifyEmail consumes one row and
succeeds, and a second submission of the very same code (state otherwise
unchanged) succeeds again instead of failing. -/
theorem verify_second_submission_succeeds :
    (verifyEmail demoEnv { code := "123456", email := "a@b.com" }
      dupStore).resp.status = 200 ∧
    (verifyEmail demoEnv { code := "123456", email := "a@b.com" }
      ((verifyEmail demoEnv { code := "123456", email := "a@b.com" }
        dupStore).store)).resp.status = 200 := by
  decide

theorem find?_email_map_verified (l : List User) (uid email : String) :
    (l.map
        (fun u => if u.id = uid then { u with isVerified := true } else u)).find?
        (fun u => u.email == email) =
      (l.find? (fun u => u.email == email)).map
        (fun u => if u.id = uid then { u with isVerified := true } else u) := by
  rw [List.find?_map]
  have hcomp : ((fun u : User => u.email == email) ∘
      (fun u : User =>
        if u.id = uid then { u with isVerified := true } else u)) =
      (fun u : User => u.email == email) := by
    funext u
    by_cases h : u.id = uid <;> simp [h, Function.comp]
  rw [hcomp]

theorem verifyEmail_success_store (env : Env) (req : VerifyEmailReq)
    (s : Store) (user : User) (v : TokenRow)
    (hc : req.code.isEmpty = false) (he : req.email.isEmpty = false)
    (hv : env.isEmail req.email = true)
    (hu : findUserByEmail s req.email = some user)
    (hfind : s.verificationTokens.find?
      (matchesVerification user.id req.code env.now) = some v) :
    (verifyEmail env req s).store =
      { users := s.users.map
          (fun u => if u.id = user.id then { u with isVerified := true }
            else u),
        verificationTokens :=
          s.verificationTokens.filter (fun t => t.id ≠ v.id),
        passwordResetTokens := s.passwordResetTokens } := by
  unfold verifyEmail
  simp [hc, he, hv, hu, hfind, markVerified]

theorem resetPassword_noMatch_400 (env : Env) (req : ResetPasswordReq)
    (s : Store)
    (ht : req.token.isEmpty = false) (hp : req.password.isEmpty = false)
    (hnone : s.passwordResetTokens.find?
      (matchesReset req.token env.now) = none) :
    resetPassword env req s =
      errOut 400 "Invalid or expired reset token" s := by
  unfold resetPassword
  simp [ht, hp, hnone]

theorem resetPassword_success_store (env : Env) (req : ResetPasswordReq)
    (s : Store) (v : TokenRow)
    (ht : req.token.isEmpty = false) (hp : req.password.isEmpty = false)
    (hfind : s.passwordResetTokens.find?
      (matchesReset req.token env.now) = some v) :
    (resetPassword env req s).store =
      { users := s.users.map
          (fun u => if u.id = v.userId
            then { u with password := bcryptHash req.password 10 } else u),
        verificationTokens := s.verificationTokens,
        passwordResetTokens :=
          s.passwordResetTokens.filter (fun t => t.id ≠ v.id) } := by
  unfold resetPassword
  simp [ht, hp, hfind, setPassword]

/-- C3 (amended): whenever verifyEmail or resetPassword successfully
consumes a token, it deletes the consumed row from the store in the same
request, so the consumed row never becomes valid again; and provided no
OTHER stored row matches the same submission (same user and code for
verification, same token string for reset), a second submission of the
same token against the resulting state fails. -/
theorem consumed_tokens_deleted_single_use :
    (∀ env (req : VerifyEmailReq) s user t,
      req.code.isEmpty = false → req.email.isEmpty = false →
      env.isEmail req.email = true →
      findUserByEmail s req.email = some user →
      s.verificationTokens.find?
        (matchesVerification user.id req.code env.now) = some t →
      (∀ r ∈ s.verificationTokens,
        matchesVerification user.id req.code env.now r = true →
        r.id = t.id) →
      (∀ r ∈ (verifyEmail env req s).store.verificationTokens,
        r.id ≠ t.id) ∧
      (verifyEmail env req
        ((verifyEmail env req s).store)).resp.status = 403) ∧
    (∀ env (req : ResetPasswordReq) s t,
      req.token.isEmpty = false → req.password.isEmpty = false →
      s.passwordResetTokens.find? (matchesReset req.token env.now) = some t →
      (∀ r ∈ s.passwordResetTokens,
        matchesReset req.token env.now r = true → r.id = t.id) →
      (∀ r ∈ (resetPassword env req s).store.passwordResetTokens,
        r.id ≠ t.id) ∧
      (resetPassword env req
        ((resetPassword env req s).store)).resp.status = 400) := by
  constructor
  · intro env req s user t hc he hv hu hfind huniq
    have hstore := verifyEmail_success_store env req s user t hc he hv hu hfind
    constructor
    · intro r hr
      rw [hstore] at hr
      simp only [List.mem_filter, decide_eq_true_eq] at hr
      exact hr.2
    · have hu2 : findUserByEmail ((verifyEmail env req s).store) req.email =
          some { user with isVerified := true } := by
        rw [hstore]
        show (s.users.map
            (fun u => if u.id = user.id then { u with isVerified := true }
              else u)).find? (fun u => u.email == req.email) = _
        rw [find?_email_map_verified]
        unfold findUserByEmail at hu
        rw [hu]
        simp
      have hnone2 :
          ((verifyEmail env req s).store).verificationTokens.find?
            (matchesVerification ({ user with isVerified := true }).id
              req.code env.now) = none := by
        rw [hstore]
        show (s.verificationTokens.filter (fun t2 => t2.id ≠ t.id)).find? _ =
          none
        rw [List.find?_eq_none]
        intro r hr hm
        simp only [List.mem_filter, decide_eq_true_eq] at hr
        exact hr.2 (huniq r hr.1 hm)
      rw [verifyEmail_noMatch_403 env req ((verifyEmail env req s).store)
        { user with isVerified := true } hc he hv hu2 hnone2]
      rfl
  · intro env req s t ht hp hfind huniq
    have hstore := resetPassword_success_store env req s t ht hp hfind
    constructor
    · intro r hr
      rw [hstore] at hr
      simp only [List.mem_filter, decide_eq_true_eq] at hr
      exact hr.2
    · have hnone2 :
          ((resetPassword env req s).store).passwordResetTokens.find?
            (matchesReset req.token env.now) = none := by
        rw [hstore]
        show (s.passwordResetTokens.filter (fun t2 => t2.id ≠ t.id)).find? _ =
          none
        rw [List.find?_eq_none]
        intro r hr hm
        simp only [List.mem_filter, decide_eq_true_eq] at hr
        exact hr.2 (huniq r hr.1 hm)
      rw [resetPassword_noMatch_400 env req ((resetPassword env req s).store)
        ht hp hnone2]
      rfl

theorem consumed_tokens_deleted_single_use_witness :
    (verifyEmail demoEnv { code := "123456", email := "a@b.com" }
      ((verifyEmail demoEnv { code := "123456", email := "a@b.com" }
        demoStore).store)).resp.status = 403 :=
  (consumed_tokens_deleted_single_use.1 demoEnv
      { code := "123456", email := "a@b.com" } demoStore demoUser
      ⟨"t1", "123456", 2000, "u1"⟩ (by decide) (by decide) (by decide)
      (by decide) (by decide) (by decide)).2

theorem regenerate_preserves_rows (env : Env) (req : EmailReq) (s : Store)
    (t : TokenRow) (ht : t ∈ s.verificationTokens) :
    t ∈ (regenerateVerificationToken env req s).store.verificationTokens := by
  unfold regenerateVerificationToken
  split
  · exact ht
  split
  · exact ht
  split
  · exact ht
  split
  · exact ht
  · exact List.mem_cons_of_mem _ ht

theorem forgotPassword_preserves_rows (env : Env) (req : EmailReq)
    (s : Store) (t : TokenRow) (ht : t ∈ s.passwordResetTokens) :
    t ∈ (forgotPassword env req s).store.passwordResetTokens := by
  unfold forgotPassword
  split
  · exact ht
  split
  · exact ht
  split
  · exact ht
  · exact List.mem_cons_of_mem _ ht

theorem resetPassword_success_iff (env : Env) (req : ResetPasswordReq)
    (s : Store)
    (ht : req.token.isEmpty = false) (hp : req.password.isEmpty = false) :
    (resetPassword env req s).resp.status = 200 ↔
      ∃ t ∈ s.passwordResetTokens,
        t.token = req.token ∧ env.now < t.expiresAt := by
  cases hfind : s.passwordResetTokens.find? (matchesReset req.token env.now)
      with
  | none =>
    rw [resetPassword_noMatch_400 env req s ht hp hfind]
    constructor
    · intro h
      simp [errOut] at h
    · intro hex
      exfalso
      obtain ⟨t, htm, h1, h2⟩ := hex
      have hn := List.find?_eq_none.mp hfind t htm
      rw [matchesReset_iff] at hn
      exact hn ⟨h1, h2⟩
  | some v =>
    have hmem := List.mem_of_find?_eq_some hfind
    have hpv := List.find?_some hfind
    rw [matchesReset_iff] at hpv
    have h200 : (resetPassword env req s).resp.status = 200 := by
      unfold resetPassword
      simp [ht, hp, hfind]
    constructor
    · intro _
      exact ⟨v, hmem, hpv⟩
    · intro _
      exact h200

/-- C10: issuing a new token never invalidates previously issued ones:
regenerateVerificationToken and forgotPassword only insert a new row and
preserve every existing row, so several unexpired tokens for the same
user can coexist; and verifyEmail (resp. resetPassword) succeeds exactly
when ANY stored row matches, so any one of the coexisting tokens is
accepted. -/
theorem token_issuance_additive :
    (∀ env (req : EmailReq) s t, t ∈ s.verificationTokens →
      t ∈ (regenerateVerificationToken env req s).store.verificationTokens) ∧
    (∀ env (req : EmailReq) s t, t ∈ s.passwordResetTokens →
      t ∈ (forgotPassword env req s).store.passwordResetTokens) ∧
    (∀ env (req : VerifyEmailReq) s user,
      req.code.isEmpty = false → req.email.isEmpty = false →
      env.isEmail req.email = true →
      findUserByEmail s req.email = some user →
      ((verifyEmail env req s).resp.status = 200 ↔
        ∃ t ∈ s.verificationTokens,
          t.userId = user.id ∧ t.token = req.code ∧
            env.now < t.expiresAt)) ∧
    (∀ env (req : ResetPasswordReq) s,
      req.token.isEmpty = false → req.password.isEmpty = false →
      ((resetPassword env req s).resp.status = 200 ↔
        ∃ t ∈ s.passwordResetTokens,
          t.token = req.token ∧ env.now < t.expiresAt)) :=
  ⟨regenerate_preserves_rows, forgotPassword_preserves_rows,
   fun env req s user hc he hv hu =>
     verifyEmail_success_iff env req s user hc he hv hu,
   fun env req s ht hp => resetPassword_success_iff env req s ht hp⟩

theorem token_issuance_additive_witness :
    (⟨"t1", "123456", 2000, "u1"⟩ : TokenRow) ∈
      (regenerateVerificationToken demoEnv { email := "a@b.com" }
        demoStore).store.verificationTokens :=
  token_issuance_additive.1 demoEnv { email := "a@b.com" } demoStore
    ⟨"t1", "123456", 2000, "u1"⟩ (by decide)

theorem verification_codes_six_digits_24h_witness :
    (signup demoEnv { email := "a@b.com", password := "pw", name := "Alice" }
      emptyStore).store.verificationTokens =
        emptyStore.verificationTokens ∨
    ∃ row, (signup demoEnv
        { email := "a@b.com", password := "pw", name := "Alice" }
        emptyStore).store.verificationTokens =
      row :: emptyStore.verificationTokens ∧
      goodVerificationRow demoEnv row :=
  (verification_codes_six_digits_24h demoEnv (by norm_num [demoEnv])
    (by norm_num [demoEnv])).1
    { email := "a@b.com", password := "pw", name := "Alice" } emptyStore
